import Mathlib

/-!
Shallow embedding of the Entitlement, Progress & Achievement Engine of the
Andrea_pagina backend (Rust/actix/sqlx), together with proofs checking the
natural-language specification against the code.

Time instants are modelled as integers (seconds); `NOW()` is an explicit
`now : Int` parameter.  SQL `NULL` columns are `Option`.  Each definition is
translated from a named function of the source (`src/db/db.rs`,
`src/func/payments.rs`, `src/main.rs`).
-/

namespace AndreaPagina

/-- Row of the `users` table (the fields used by the engine). -/
structure User where
  id : Nat
  role : String
deriving DecidableEq

/-- Row of the `subscription` table.  `end_time` is nullable in the schema
(`end_time: Option<DateTime<Utc>>` in `models.rs`). -/
structure Subscription where
  user_id : Nat
  status : Bool
  end_time : Option Int
deriving DecidableEq

/-- Row of the `user_courses` table (a per-course purchase record). -/
structure UserCourse where
  user_id : Nat
  course_id : Nat
deriving DecidableEq

/-- Row of the `modules` table. -/
structure Module where
  id : Nat
  course_id : Nat
deriving DecidableEq

/-- Row of the `lessons` table. -/
structure Lesson where
  id : Nat
  module_id : Nat
deriving DecidableEq

/-- Row of the `user_lesson_progress` table. -/
structure LessonProgress where
  user_id : Nat
  lesson_id : Nat
  is_completed : Bool
  progress : Option ℚ
  completed_at : Option Int
  last_accessed : Int
deriving DecidableEq

/-- Row of the `course_progress` table. -/
structure CourseProgress where
  user_id : Nat
  course_id : Nat
  progress_percentage : ℚ
  total_lessons : Nat
  completed_lessons : Nat
  completed_at : Option Int
  last_accessed : Int
deriving DecidableEq

/-- Row of the `achievement` table. -/
structure Achievement where
  id : Nat
  trigger_type : String
  trigger_value : Int
  active : Bool
deriving DecidableEq

/-- Row of the `user_achievement` table. -/
structure UserAchievement where
  user_id : Nat
  achievement_id : Nat
  earned : Bool
  earned_at : Option Int
deriving DecidableEq

/-- Row of the `lesson_comments` table (only the author matters here). -/
structure LessonComment where
  user_id : Nat
deriving DecidableEq

/-- Row of the `user_stats` table. -/
structure UserStat where
  user_id : Nat
  stat_type : String
  value : Int
deriving DecidableEq

/-- The backing store: the tables read or written by the engine. -/
structure Db where
  users : List User
  subscriptions : List Subscription
  user_courses : List UserCourse
  modules : List Module
  lessons : List Lesson
  lesson_progress : List LessonProgress
  course_progress : List CourseProgress
  achievements : List Achievement
  user_achievements : List UserAchievement
  lesson_comments : List LessonComment
  user_stats : List UserStat
deriving DecidableEq

/-- SQL `end_time > NOW()` on a nullable column: `NULL > NOW()` is not true. -/
def endTimeInFuture (now : Int) (e : Option Int) : Bool :=
  match e with
  | some t => now < t
  | none => false

/-- Query 1 of `check_user_course_access`:
`EXISTS(SELECT 1 FROM users WHERE id = $1 AND role = 'admin')`. -/
def isAdminQuery (db : Db) (user_id : Nat) : Bool :=
  db.users.any (fun u => u.id == user_id && u.role == "admin")

/-- Query 2 of `check_user_course_access`:
`EXISTS(SELECT 1 FROM subscription WHERE user_id = $1 AND status = true AND end_time > NOW())`. -/
def hasActiveSubscriptionQuery (db : Db) (now : Int) (user_id : Nat) : Bool :=
  db.subscriptions.any (fun s =>
    s.user_id == user_id && s.status && endTimeInFuture now s.end_time)

/-- Query 3 of `check_user_course_access`:
`EXISTS(SELECT 1 FROM user_courses WHERE user_id = $1 AND course_id = $2)`. -/
def hasPurchasedQuery (db : Db) (user_id course_id : Nat) : Bool :=
  db.user_courses.any (fun uc =>
    uc.user_id == user_id && uc.course_id == course_id)

/-- `check_user_course_access` (db.rs): admin check first, then active
subscription, then per-course purchase, each returning early on a match. -/
def check_user_course_access (db : Db) (now : Int) (user_id course_id : Nat) : Bool :=
  if isAdminQuery db user_id then
    true
  else if hasActiveSubscriptionQuery db now user_id then
    true
  else
    hasPurchasedQuery db user_id course_id

/-- `check_user_has_active_subscription` (db.rs):
`EXISTS(SELECT 1 FROM subscription WHERE user_id = $1 AND end_time > NOW())` —
note: no condition on `status`. -/
def check_user_has_active_subscription (db : Db) (now : Int) (user_id : Nat) : Bool :=
  db.subscriptions.any (fun s =>
    s.user_id == user_id && endTimeInFuture now s.end_time)

/-- Lookup on the unique key `(user_id, achievement_id)` of `user_achievement`. -/
def findUserAchievement (rows : List UserAchievement) (uid aid : Nat) :
    Option UserAchievement :=
  rows.find? (fun r => r.user_id == uid && r.achievement_id == aid)

/-- The atomic write of `check_and_award_achievements` (db.rs):
`INSERT INTO user_achievement (user_id, achievement_id, earned, earned_at)
VALUES ($1, $2, true, NOW()) ON CONFLICT (user_id, achievement_id) DO UPDATE
SET earned = true, earned_at = COALESCE(user_achievement.earned_at, NOW())
WHERE user_achievement.earned = false RETURNING true`, read with
`fetch_optional(..).unwrap_or(false)`.  Returns the updated rows and whether
`RETURNING` produced a row (`was_awarded`).  `awardRowUpdate` is the
`DO UPDATE SET` assignment applied to the conflicting row (the unique row
with the key, so the relational update is a map over the table). -/
def awardRowUpdate (uid aid : Nat) (now : Int) (r2 : UserAchievement) :
    UserAchievement :=
  if r2.user_id == uid && r2.achievement_id == aid then
    { r2 with earned := true,
              earned_at := match r2.earned_at with
                           | some t => some t
                           | none => some now }
  else r2

/-- The conditional-upsert loop body of `check_and_award_achievements`. -/
def awardUpsert (rows : List UserAchievement) (uid aid : Nat) (now : Int) :
    List UserAchievement × Bool :=
  match findUserAchievement rows uid aid with
  | none =>
      (rows ++ [{ user_id := uid, achievement_id := aid, earned := true,
                  earned_at := some now }], true)
  | some r =>
      if r.earned then
        (rows, false)
      else
        (rows.map (awardRowUpdate uid aid now), true)

/-- Lessons of a course:
`lessons WHERE module_id IN (SELECT id FROM modules WHERE course_id = $1)`. -/
def courseLessons (db : Db) (course_id : Nat) : List Lesson :=
  db.lessons.filter (fun l =>
    db.modules.any (fun m => m.id == l.module_id && m.course_id == course_id))

/-- Completed `user_lesson_progress` rows of an account restricted to one
course's lessons (the join of the `course_completed` metric and the
`completed_lessons` count of `update_lesson_progress`). -/
def completedLessonRows (db : Db) (uid cid : Nat) : List LessonProgress :=
  db.lesson_progress.filter (fun p =>
    p.user_id == uid && p.is_completed &&
      db.lessons.any (fun l => l.id == p.lesson_id &&
        db.modules.any (fun m => m.id == l.module_id && m.course_id == cid)))

/-- `EXISTS (... GROUP BY m.course_id HAVING COUNT(*) = total)` of the
`course_completed` metric: the grouped row exists only when the account has
completed at least one lesson of the course, and the completed count equals
the course's total lesson count. -/
def courseFullyCompleted (db : Db) (uid cid : Nat) : Bool :=
  let c := (completedLessonRows db uid cid).length
  decide (0 < c) && c == (courseLessons db cid).length

/-- `SELECT COUNT(DISTINCT uc.course_id) FROM user_courses uc WHERE uc.user_id
= $1 AND EXISTS (...)` of `check_and_award_achievements`. -/
def metric_course_completed (db : Db) (uid : Nat) : Int :=
  (((db.user_courses.filter (fun uc =>
      uc.user_id == uid && courseFullyCompleted db uid uc.course_id)).map
        (fun uc => uc.course_id)).dedup).length

/-- `SELECT COUNT(*) FROM user_lesson_progress WHERE user_id = $1 AND
is_completed = true`. -/
def metric_lesson_completed (db : Db) (uid : Nat) : Int :=
  (db.lesson_progress.filter (fun p => p.user_id == uid && p.is_completed)).length

/-- `SELECT COUNT(*) FROM user_courses WHERE user_id = $1`. -/
def metric_courses_enrolled (db : Db) (uid : Nat) : Int :=
  (db.user_courses.filter (fun uc => uc.user_id == uid)).length

/-- `SELECT COUNT(*) FROM lesson_comments WHERE user_id = $1`. -/
def metric_comments_created (db : Db) (uid : Nat) : Int :=
  (db.lesson_comments.filter (fun c => c.user_id == uid)).length

/-- `SELECT COALESCE((SELECT value FROM user_stats WHERE user_id = $1 AND
stat_type = 'login_streak'), 0)`. -/
def metric_login_streak (db : Db) (uid : Nat) : Int :=
  match db.user_stats.find? (fun s =>
      s.user_id == uid && s.stat_type == "login_streak") with
  | some s => s.value
  | none => 0

/-- Step 1 of `check_and_award_achievements`: the account's current metric for
`action`, with an unrecognized action falling back to the caller's value. -/
def computeMetric (db : Db) (uid : Nat) (action : String) (fallback_value : Int) : Int :=
  match action with
  | "course_completed" => metric_course_completed db uid
  | "lesson_completed" => metric_lesson_completed db uid
  | "courses_enrolled" => metric_courses_enrolled db uid
  | "comments_created" => metric_comments_created db uid
  | "login_streak" => metric_login_streak db uid
  | _ => fallback_value

/-- Step 2 of `check_and_award_achievements`: `SELECT ... FROM achievement
WHERE trigger_type = $1 AND trigger_value <= $2 AND active = true`. -/
def eligibleAchievements (db : Db) (action : String) (current_value : Int) :
    List Achievement :=
  db.achievements.filter (fun a =>
    a.trigger_type == action && decide (a.trigger_value ≤ current_value) && a.active)

/-- Step 3 of `check_and_award_achievements`: the `for achievement in
achievements` loop, accumulating the rows state and the `awarded` vector. -/
def awardLoop (rows : List UserAchievement) (uid : Nat) (now : Int) :
    List Achievement → List UserAchievement × List Achievement
  | [] => (rows, [])
  | a :: rest =>
      let step := awardUpsert rows uid a.id now
      let restRes := awardLoop step.1 uid now rest
      (restRes.1, (if step.2 then [a] else []) ++ restRes.2)

/-- Result of `check_and_award_achievements`: the committed store and the
returned `Vec<Achievement>` of newly awarded achievements. -/
structure AwardResult where
  db : Db
  awarded : List Achievement
deriving DecidableEq

/-- `check_and_award_achievements` (db.rs). -/
def check_and_award_achievements (db : Db) (uid : Nat) (action : String)
    (value : Option Int) (now : Int) : AwardResult :=
  let fallback_value := value.getD 1
  let current_value := computeMetric db uid action fallback_value
  let achievements := eligibleAchievements db action current_value
  let res := awardLoop db.user_achievements uid now achievements
  { db := { db with user_achievements := res.1 }, awarded := res.2 }

/-- The `DO UPDATE SET earned = true, earned_at = EXCLUDED.earned_at`
assignment of `earn_achievement`, applied to the conflicting row. -/
def earnRowUpdate (uid aid : Nat) (now : Int) (r2 : UserAchievement) :
    UserAchievement :=
  if r2.user_id == uid && r2.achievement_id == aid then
    { r2 with earned := true, earned_at := some now }
  else r2

/-- `earn_achievement` (db.rs): `INSERT ... VALUES ($1, $2, $3, true, $4)
ON CONFLICT (user_id, achievement_id) DO UPDATE SET earned = true,
earned_at = EXCLUDED.earned_at RETURNING ...` — on conflict the stored
`earned_at` is overwritten with this call's timestamp. -/
def earn_achievement (db : Db) (uid aid : Nat) (now : Int) :
    Db × UserAchievement :=
  match findUserAchievement db.user_achievements uid aid with
  | none =>
      let row : UserAchievement :=
        { user_id := uid, achievement_id := aid, earned := true, earned_at := some now }
      ({ db with user_achievements := db.user_achievements ++ [row] }, row)
  | some r =>
      let row : UserAchievement := { r with earned := true, earned_at := some now }
      ({ db with user_achievements :=
          db.user_achievements.map (earnRowUpdate uid aid now) }, row)

/-- First statement of `update_lesson_progress` (db.rs): `INSERT INTO
user_lesson_progress (id, user_id, lesson_id, is_completed, progress,
last_accessed) VALUES (...) ON CONFLICT (user_id, lesson_id) DO UPDATE SET
is_completed = $4, progress = $5, last_accessed = NOW(), updated_at = NOW(),
completed_at = CASE WHEN $4 = true THEN NOW() ELSE
user_lesson_progress.completed_at END`.  A fresh insert leaves
`completed_at` at its default (`NULL`): the column is not in the insert list. -/
def lessonRowUpdate (uid lid : Nat) (is_completed : Bool) (progress : Option ℚ)
    (now : Int) (p : LessonProgress) : LessonProgress :=
  if p.user_id == uid && p.lesson_id == lid then
    { p with is_completed := is_completed, progress := progress,
             last_accessed := now,
             completed_at := if is_completed then some now else p.completed_at }
  else p

def upsertLessonProgress (rows : List LessonProgress) (uid lid : Nat)
    (is_completed : Bool) (progress : Option ℚ) (now : Int) : List LessonProgress :=
  match rows.find? (fun p => p.user_id == uid && p.lesson_id == lid) with
  | none =>
      rows ++ [{ user_id := uid, lesson_id := lid, is_completed := is_completed,
                 progress := progress, completed_at := none, last_accessed := now }]
  | some _ =>
      rows.map (lessonRowUpdate uid lid is_completed progress now)

/-- `SELECT COUNT(*) FROM lessons WHERE module_id IN (SELECT id FROM modules
WHERE course_id = $1)` of `update_lesson_progress`. -/
def total_lessons_query (db : Db) (cid : Nat) : Nat :=
  (courseLessons db cid).length

/-- `SELECT COUNT(*) FROM user_lesson_progress WHERE user_id = $1 AND
is_completed = true AND lesson_id IN (SELECT id FROM lessons WHERE module_id
IN (SELECT id FROM modules WHERE course_id = $2))`. -/
def completed_lessons_query (db : Db) (uid cid : Nat) : Nat :=
  (completedLessonRows db uid cid).length

/-- The percentage derivation of `update_lesson_progress`:
`if total > 0 { completed / total * 100 } else { 0 }`, over the recomputed
counts. -/
def derivedPercentage (db : Db) (uid cid : Nat) : ℚ :=
  if 0 < total_lessons_query db cid then
    (completed_lessons_query db uid cid : ℚ) /
      (total_lessons_query db cid : ℚ) * 100
  else 0

/-- Last statement of the `update_lesson_progress` transaction: `INSERT INTO
course_progress (id, user_id, course_id, progress_percentage, total_lessons,
completed_lessons, last_accessed) VALUES (...) ON CONFLICT (user_id,
course_id) DO UPDATE SET progress_percentage = $4, completed_lessons = $6,
last_accessed = NOW(), updated_at = NOW(), completed_at = CASE WHEN $4 = 100
THEN NOW() ELSE course_progress.completed_at END`.  On conflict
`total_lessons` is not updated, and a fresh insert leaves `completed_at`
at its default. -/
def upsertCourseProgress (rows : List CourseProgress) (uid cid : Nat) (pct : ℚ)
    (total completed : Nat) (now : Int) : List CourseProgress :=
  match rows.find? (fun cp => cp.user_id == uid && cp.course_id == cid) with
  | none =>
      rows ++ [{ user_id := uid, course_id := cid, progress_percentage := pct,
                 total_lessons := total, completed_lessons := completed,
                 completed_at := none, last_accessed := now }]
  | some _ =>
      rows.map (fun cp =>
        if cp.user_id == uid && cp.course_id == cid then
          { cp with progress_percentage := pct, completed_lessons := completed,
                    last_accessed := now,
                    completed_at := if pct == 100 then some now else cp.completed_at }
        else cp)

/-- Observable outcome of one `update_lesson_progress` call: the final store,
the freshly derived percentage, and which post-commit achievement checks
were invoked. -/
structure ProgressOutcome where
  db : Db
  progress_percentage : ℚ
  lesson_check_run : Bool
  course_check_run : Bool
deriving DecidableEq

deriving instance DecidableEq for Except

/-- The store as seen inside `update_lesson_progress` right after the
lesson-progress upsert. -/
def dbAfterLessonUpsert (db : Db) (uid lid : Nat) (c : Bool) (pr : Option ℚ)
    (now : Int) : Db :=
  { db with lesson_progress :=
      upsertLessonProgress db.lesson_progress uid lid c pr now }

/-- `update_lesson_progress` (db.rs): upsert the lesson row, resolve
lesson → module → course (each `fetch_one`, failing if absent), recompute the
course counts from current rows, derive the percentage (`total > 0` guard,
else `0`), upsert the course aggregate, commit, then run the post-commit
achievement checks: `lesson_completed` only when `is_completed`, and
`course_completed` only when the percentage is ≥ 100. -/
def update_lesson_progress (db : Db) (uid lid : Nat) (is_completed : Bool)
    (progress : Option ℚ) (now : Int) : Except String ProgressOutcome :=
  let db1 : Db :=
    { db with lesson_progress :=
        upsertLessonProgress db.lesson_progress uid lid is_completed progress now }
  match db1.lessons.find? (fun l => l.id == lid) with
  | none => Except.error "fetch_one: lesson has no row"
  | some l =>
    match db1.modules.find? (fun m => m.id == l.module_id) with
    | none => Except.error "fetch_one: module has no row"
    | some m =>
      let course_id := m.course_id
      let total_lessons_value := total_lessons_query db1 course_id
      let completed_lessons_value := completed_lessons_query db1 uid course_id
      let progress_percentage : ℚ := derivedPercentage db1 uid course_id
      let db2 : Db :=
        { db1 with course_progress :=
            (upsertCourseProgress db1.course_progress uid course_id
              progress_percentage total_lessons_value completed_lessons_value now) }
      let afterLesson :=
        if is_completed then
          ((check_and_award_achievements db2 uid "lesson_completed" none now).db, true)
        else (db2, false)
      let afterCourse :=
        if 100 ≤ progress_percentage then
          ((check_and_award_achievements afterLesson.1 uid "course_completed" none now).db,
            true)
        else (afterLesson.1, false)
      Except.ok { db := afterCourse.1, progress_percentage := progress_percentage,
                  lesson_check_run := afterLesson.2,
                  course_check_run := afterCourse.2 }

/-- `CachedToken` (main.rs): access token plus absolute expiry instant. -/
structure CachedToken where
  access_token : String
  expires_at : Int
deriving DecidableEq

/-- `CachedToken::is_valid` (main.rs): `Utc::now() < self.expires_at`. -/
def CachedToken.is_valid (c : CachedToken) (now : Int) : Bool :=
  now < c.expires_at

/-- The observable outcome of the OAuth2 token request of `get_paypal_token`
(payments.rs): the send can fail, the body can fail to parse as JSON, or a
JSON object arrives whose `access_token` and `expires_in` fields may each be
absent. -/
inductive FetchOutcome where
  | unreachable
  | malformedBody
  | payload (access_token : Option String) (expires_in : Option Int)
deriving DecidableEq

/-- How one `get_paypal_token` call ends: a returned token string, or a panic
raised by one of the three `expect` calls. -/
inductive TokenCallResult where
  | token (access_token : String)
  | panicked (msg : String)
deriving DecidableEq

/-- Observable outcome of one `get_paypal_token` call: how it ended, the cache
afterwards, and whether a provider request was performed. -/
structure TokenCacheOutcome where
  result : TokenCallResult
  cache : Option CachedToken
  fetched : Bool
deriving DecidableEq

/-- Steps 2–3 of `get_paypal_token` (payments.rs): the provider request (three
`expect` calls on its outcome), the `expires_in - 60` safety margin baked into
`expires_at`, and the re-check under the write lock before installing
(sequential model: the cache seen at the re-check is the one passed in). -/
def get_paypal_token_fetch (cache : Option CachedToken) (now : Int)
    (fetch : FetchOutcome) : TokenCacheOutcome :=
  match fetch with
  | FetchOutcome.unreachable =>
      { result := TokenCallResult.panicked "Error solicitando token PayPal",
        cache := cache, fetched := true }
  | FetchOutcome.malformedBody =>
      { result := TokenCallResult.panicked "Error parseando JSON de token PayPal",
        cache := cache, fetched := true }
  | FetchOutcome.payload access_token expires_in =>
      match access_token with
      | none =>
          { result := TokenCallResult.panicked "No se encontró access_token",
            cache := cache, fetched := true }
      | some tok =>
          let expires_in_value := expires_in.getD 3600
          let new_token : CachedToken :=
            { access_token := tok, expires_at := now + (expires_in_value - 60) }
          match cache with
          | some cached =>
              if cached.is_valid now then
                { result := TokenCallResult.token cached.access_token,
                  cache := cache, fetched := true }
              else
                { result := TokenCallResult.token tok,
                  cache := some new_token, fetched := true }
          | none =>
              { result := TokenCallResult.token tok,
                cache := some new_token, fetched := true }

/-- `get_paypal_token` (payments.rs): optimistic read of the cache under the
read lock, returning the cached token without any provider request when it is
still valid; otherwise fetch and install. -/
def get_paypal_token (cache : Option CachedToken) (now : Int)
    (fetch : FetchOutcome) : TokenCacheOutcome :=
  match cache with
  | some cached =>
      if cached.is_valid now then
        { result := TokenCallResult.token cached.access_token,
          cache := cache, fetched := false }
      else get_paypal_token_fetch cache now fetch
  | none => get_paypal_token_fetch cache now fetch

/-- The five PayPal signature headers of `paypal_webhook` (payments.rs), each
possibly absent from the request. -/
structure WebhookHeaders where
  transmission_id : Option String
  transmission_sig : Option String
  transmission_time : Option String
  cert_url : Option String
  auth_algo : Option String
deriving DecidableEq

/-- The raw webhook body as the handler observes it: whether it parses as
JSON, and the string value of its `event_type` field when present. -/
structure WebhookBody where
  valid_json : Bool
  event_type : Option String
deriving DecidableEq

/-- HTTP outcome of the webhook handler: `HttpResponse::Ok()` or the 400
`HttpError::bad_request`. -/
inductive WebhookResponse where
  | ok200
  | badRequest (msg : String)
deriving DecidableEq

/-- The event types with a dedicated arm in `paypal_webhook`'s dispatch. -/
def handledEventTypes : List String :=
  ["PAYMENT.CAPTURE.COMPLETED", "PAYMENT.CAPTURE.DENIED",
   "PAYMENT.CAPTURE.PENDING", "PAYMENT.CAPTURE.REFUNDED",
   "PAYMENT.CAPTURE.REVERSED", "CHECKOUT.ORDER.APPROVED",
   "BILLING.SUBSCRIPTION.CREATED", "BILLING.SUBSCRIPTION.ACTIVATED",
   "BILLING.SUBSCRIPTION.UPDATED", "BILLING.SUBSCRIPTION.CANCELLED",
   "BILLING.SUBSCRIPTION.EXPIRED", "BILLING.SUBSCRIPTION.SUSPENDED",
   "BILLING.SUBSCRIPTION.PAYMENT.FAILED", "PAYMENT.SALE.COMPLETED",
   "PAYMENT.SALE.REFUNDED", "PAYMENT.SALE.REVERSED",
   "PAYMENT.ORDER.CANCELLED", "PAYMENT.AUTHORIZATION.CREATED",
   "PAYMENT.AUTHORIZATION.VOIDED"]

/-- `verify_paypal_webhook_signature` (payments.rs): an unparseable body
returns `false` before any provider call; otherwise the result is the
provider's verification verdict (`false` also covers a failed send or a
missing/non-`SUCCESS` `verification_status`). -/
def verify_paypal_webhook_signature (body : WebhookBody) (providerVerified : Bool) :
    Bool :=
  if body.valid_json then providerVerified else false

/-- `paypal_webhook` (payments.rs): extract the five signature headers (any
missing one is a 400 before verification), verify the signature, re-parse the
body, then dispatch on `event_type`; every handled arm returns
`HttpResponse::Ok()` and performs no store mutation, and the wildcard arm is
a 400.  The store is threaded through to make "no row is touched" statable. -/
def paypal_webhook (db : Db) (h : WebhookHeaders) (body : WebhookBody)
    (providerVerified : Bool) : WebhookResponse × Db :=
  match h.transmission_id with
  | none => (WebhookResponse.badRequest "Missing PAYPAL-TRANSMISSION-ID", db)
  | some _ =>
  match h.transmission_sig with
  | none => (WebhookResponse.badRequest "Missing PAYPAL-TRANSMISSION-SIG", db)
  | some _ =>
  match h.transmission_time with
  | none => (WebhookResponse.badRequest "Missing PAYPAL-TRANSMISSION-TIME", db)
  | some _ =>
  match h.cert_url with
  | none => (WebhookResponse.badRequest "Missing PAYPAL-CERT-URL", db)
  | some _ =>
  match h.auth_algo with
  | none => (WebhookResponse.badRequest "Missing PAYPAL-AUTH-ALGO", db)
  | some _ =>
  if verify_paypal_webhook_signature body providerVerified = false then
    (WebhookResponse.badRequest "Invalid PayPal webhook signature", db)
  else if body.valid_json = false then
    (WebhookResponse.badRequest "Invalid payload", db)
  else
    match body.event_type with
    | some t =>
        if t ∈ handledEventTypes then (WebhookResponse.ok200, db)
        else (WebhookResponse.badRequest "Unsupported event type", db)
    | none => (WebhookResponse.badRequest "Unsupported event type", db)

/-- The uniqueness constraints of the store that the engine's SQL relies on
(`ON CONFLICT` targets and primary keys). -/
def Db.wf (db : Db) : Prop :=
  (db.lesson_progress.map (fun p => (p.user_id, p.lesson_id))).Nodup ∧
  (db.user_achievements.map (fun r => (r.user_id, r.achievement_id))).Nodup ∧
  (db.achievements.map (fun a => a.id)).Nodup

instance (db : Db) : Decidable db.wf := by
  unfold Db.wf
  infer_instance

/-- A store with every table empty. -/
def emptyDb : Db :=
  { users := [], subscriptions := [], user_courses := [], modules := [],
    lessons := [], lesson_progress := [], course_progress := [],
    achievements := [], user_achievements := [], lesson_comments := [],
    user_stats := [] }

/-- An admin account (id 1) with no subscription row and no purchase row. -/
def adminOnlyDb : Db :=
  { emptyDb with users := [{ id := 1, role := "admin" }] }

/-- A standard account (id 2) whose only subscription expired at time 50,
with no purchase rows. -/
def expiredSubDb : Db :=
  { emptyDb with
    users := [{ id := 2, role := "user" }],
    subscriptions := [{ user_id := 2, status := true, end_time := some 50 }] }

/-- A standard account (id 2) holding a subscription that is switched on
(`status = true`) but whose `end_time` is unset (`NULL`), with no purchases. -/
def unsetEndTimeDb : Db :=
  { emptyDb with
    users := [{ id := 2, role := "user" }],
    subscriptions := [{ user_id := 2, status := true, end_time := none }] }

/-- A standard account (id 3) whose subscription was deactivated
(`status = false`) but whose `end_time` (100) has not yet passed. -/
def cancelledSubDb : Db :=
  { emptyDb with
    users := [{ id := 3, role := "user" }],
    subscriptions := [{ user_id := 3, status := false, end_time := some 100 }] }

/-- A standard account (id 2) with a switched-on subscription ending at
time 100. -/
def futureSubDb : Db :=
  { emptyDb with
    users := [{ id := 2, role := "user" }],
    subscriptions := [{ user_id := 2, status := true, end_time := some 100 }] }

/-- Whether the handler answered with the 400 `bad_request` rather than
`HttpResponse::Ok()`. -/
def WebhookResponse.isClientError : WebhookResponse → Bool
  | WebhookResponse.ok200 => false
  | WebhookResponse.badRequest _ => true

/-- A request carrying all five PayPal signature headers. -/
def fullHeaders : WebhookHeaders :=
  { transmission_id := some "tid", transmission_sig := some "sig",
    transmission_time := some "time", cert_url := some "cert",
    auth_algo := some "algo" }

/-- The same request with the signature header stripped. -/
def noSigHeaders : WebhookHeaders :=
  { fullHeaders with transmission_sig := none }

/-- A well-formed body carrying `BILLING.SUBSCRIPTION.CANCELLED`. -/
def cancelledEventBody : WebhookBody :=
  { valid_json := true, event_type := some "BILLING.SUBSCRIPTION.CANCELLED" }

/-- A well-formed body carrying an event type the dispatch does not know. -/
def unknownEventBody : WebhookBody :=
  { valid_json := true, event_type := some "SOME.UNKNOWN.EVENT" }

/-- Whether the `(uid, aid)` row exists and is already earned. -/
def alreadyEarned (rows : List UserAchievement) (uid aid : Nat) : Bool :=
  match findUserAchievement rows uid aid with
  | some r => r.earned
  | none => false

/-- An achievement awarded after one completed lesson. -/
def lessonAchievement : Achievement :=
  { id := 1, trigger_type := "lesson_completed", trigger_value := 1, active := true }

/-- A completed-lesson row of account 1 on lesson 1. -/
def completedRow11 : LessonProgress :=
  { user_id := 1, lesson_id := 1, is_completed := true, progress := none,
    completed_at := none, last_accessed := 0 }

/-- A store where account 1 has completed one lesson and the lesson-count
achievement is not yet earned. -/
def awardDb : Db :=
  { emptyDb with
    achievements := [lessonAchievement],
    lesson_progress := [completedRow11] }

/-- An already-earned achievement row (account 1, achievement 7, time 3). -/
def earnedRow17 : UserAchievement :=
  { user_id := 1, achievement_id := 7, earned := true, earned_at := some 3 }

/-- A store where account 1 already earned achievement 2 at time 10. -/
def earnedDb : Db :=
  { emptyDb with user_achievements :=
      [{ user_id := 1, achievement_id := 2, earned := true, earned_at := some 10 }] }

/-- The single-course store used for the concrete progress runs: course 1 has
module 1 with lessons 1 and 2, and no progress rows yet. -/
def progressDb : Db :=
  { emptyDb with
    modules := [{ id := 1, course_id := 1 }],
    lessons := [{ id := 1, module_id := 1 }, { id := 2, module_id := 1 }] }

theorem endTimeInFuture_eq_true_iff (now : Int) (e : Option Int) :
    endTimeInFuture now e = true ↔ ∃ t, e = some t ∧ now < t := by
  cases e <;> simp [endTimeInFuture]

/-- C1: `check_user_course_access` evaluates admin role, then active
subscription, then per-course purchase, short-circuiting on the first match,
and returns denied exactly when all three queries fail; an admin with no
subscription and no purchase is granted every course, and a standard account
with an expired subscription and no purchase is denied. -/
theorem C1_access_precedence :
    (∀ (db : Db) (now : Int) (uid cid : Nat),
      check_user_course_access db now uid cid =
        (isAdminQuery db uid || (hasActiveSubscriptionQuery db now uid ||
          hasPurchasedQuery db uid cid))) ∧
    (∀ (db : Db) (now : Int) (uid cid : Nat),
      check_user_course_access db now uid cid = false ↔
        (isAdminQuery db uid = false ∧
          hasActiveSubscriptionQuery db now uid = false ∧
          hasPurchasedQuery db uid cid = false)) ∧
    (∀ cid : Nat, check_user_course_access adminOnlyDb 0 1 cid = true) ∧
    check_user_course_access expiredSubDb 100 2 42 = false := by
  refine ⟨?_, ?_, ?_, ?_⟩
  · intro db now uid cid
    unfold check_user_course_access
    cases h1 : isAdminQuery db uid <;>
      cases h2 : hasActiveSubscriptionQuery db now uid <;> simp [h1, h2]
  · intro db now uid cid
    unfold check_user_course_access
    cases h1 : isAdminQuery db uid <;>
      cases h2 : hasActiveSubscriptionQuery db now uid <;> simp [h1, h2]
  · intro cid
    rfl
  · decide

/-- C5 counterexample: an account whose only subscription record is switched
on (`status = true`) with `end_time` unset is denied access — the claim's
"end_time unset ⇒ Granted" fails on `end_time > NOW()` over `NULL`. -/
theorem C5_counterexample :
    (unsetEndTimeDb.subscriptions.any (fun s =>
      s.user_id == 2 && s.status && s.end_time == none)) = true ∧
    check_user_course_access unsetEndTimeDb 0 2 7 = false := by
  decide

/-- C5 (amended): an active subscription (`status = true`) whose `end_time`
is set and strictly in the future grants access for every course. -/
theorem C5_future_subscription_grants (db : Db) (now : Int) (uid cid : Nat)
    (s : Subscription) (hmem : s ∈ db.subscriptions) (huid : s.user_id = uid)
    (hstatus : s.status = true) (t : Int) (hend : s.end_time = some t)
    (hfut : now < t) :
    check_user_course_access db now uid cid = true := by
  have hsub : hasActiveSubscriptionQuery db now uid = true := by
    unfold hasActiveSubscriptionQuery
    rw [List.any_eq_true]
    exact ⟨s, hmem, by simp [huid, hstatus, hend, endTimeInFuture, hfut]⟩
  unfold check_user_course_access
  cases h1 : isAdminQuery db uid <;> simp [h1, hsub]

/-- C5 witness: a standard account with a switched-on subscription ending at
time 100 is granted course 7 at time 0. -/
theorem C5_witness : check_user_course_access futureSubDb 0 2 7 = true :=
  C5_future_subscription_grants futureSubDb 0 2 7
    { user_id := 2, status := true, end_time := some 100 }
    (by decide) rfl rfl 100 rfl (by decide)

/-- C10: `check_user_has_active_subscription` reports an active subscription
exactly when some subscription row of the account has `end_time` strictly in
the future, ignoring `status` entirely — a deactivated subscription whose
`end_time` has not passed still counts, unlike the subscription rule inside
`check_user_course_access`, which additionally requires `status = true`. -/
theorem C10_subscription_check_ignores_status :
    (∀ (db : Db) (now : Int) (uid : Nat),
      check_user_has_active_subscription db now uid = true ↔
        ∃ s ∈ db.subscriptions, s.user_id = uid ∧
          ∃ t, s.end_time = some t ∧ now < t) ∧
    (check_user_has_active_subscription cancelledSubDb 0 3 = true ∧
      hasActiveSubscriptionQuery cancelledSubDb 0 3 = false ∧
      check_user_course_access cancelledSubDb 0 3 7 = false) := by
  constructor
  · intro db now uid
    unfold check_user_has_active_subscription
    rw [List.any_eq_true]
    constructor
    · rintro ⟨s, hs, hp⟩
      rw [Bool.and_eq_true, beq_iff_eq] at hp
      exact ⟨s, hs, hp.1, (endTimeInFuture_eq_true_iff _ _).1 hp.2⟩
    · rintro ⟨s, hs, h1, t, h2, h3⟩
      exact ⟨s, hs, by simp [h1, h2, endTimeInFuture, h3]⟩
  · decide

/-- C10 witness: the deactivated-but-unexpired subscription of account 3 is
reported active through the status-blind query. -/
theorem C10_witness : check_user_has_active_subscription cancelledSubDb 0 3 = true :=
  (C10_subscription_check_ignores_status.1 cancelledSubDb 0 3).mpr
    ⟨{ user_id := 3, status := false, end_time := some 100 }, by decide, rfl,
      100, rfl, by decide⟩

theorem get_paypal_token_fetch_fetched (cache : Option CachedToken) (now : Int)
    (fetch : FetchOutcome) :
    (get_paypal_token_fetch cache now fetch).fetched = true := by
  unfold get_paypal_token_fetch
  cases fetch with
  | unreachable => rfl
  | malformedBody => rfl
  | payload a_t e_i =>
      cases a_t with
      | none => rfl
      | some tok =>
          cases cache with
          | none => simp
          | some c => by_cases hv : c.is_valid 0 = true <;> simp [hv] <;> split <;> rfl

/-- C9: a cached token that is still valid is returned immediately with no
provider request; after installing a token with `expires_in = 65` at time 0
(provider expiry 65, safety margin 60), a call at time 60 — provider expiry 5
seconds away — performs a refresh for every possible provider outcome. -/
theorem C9_token_cache_validity :
    (∀ (c : CachedToken) (now : Int) (fetch : FetchOutcome),
      c.is_valid now = true →
        get_paypal_token (some c) now fetch =
          { result := TokenCallResult.token c.access_token, cache := some c,
            fetched := false }) ∧
    (∀ fetch2 : FetchOutcome,
      (get_paypal_token
        ((get_paypal_token none 0 (FetchOutcome.payload (some "tok") (some 65))).cache)
        60 fetch2).fetched = true) := by
  constructor
  · intro c now fetch hv
    unfold get_paypal_token
    simp [hv]
  · intro fetch2
    have hc : (get_paypal_token none 0
        (FetchOutcome.payload (some "tok") (some 65))).cache =
        some { access_token := "tok", expires_at := 5 } := rfl
    rw [hc]
    unfold get_paypal_token
    have hinv : ({ access_token := "tok", expires_at := 5 } : CachedToken).is_valid 60
        = false := by decide
    simp [hinv, get_paypal_token_fetch_fetched]

/-- C9 witness: a cached token expiring at 5 is returned without a fetch at
time 0, even with the endpoint unreachable. -/
theorem C9_witness :
    get_paypal_token (some { access_token := "tok", expires_at := 5 }) 0
      FetchOutcome.unreachable =
      { result := TokenCallResult.token "tok",
        cache := some { access_token := "tok", expires_at := 5 },
        fetched := false } :=
  C9_token_cache_validity.1 { access_token := "tok", expires_at := 5 } 0
    FetchOutcome.unreachable (by decide)

/-- C8 counterexample: with an empty cache, an unreachable token endpoint or
a malformed response body makes `get_paypal_token` end in a panic (the
`expect` calls) — no `ProviderAuthError` value is ever produced; no such
error variant exists in the code. -/
theorem C8_counterexample :
    (get_paypal_token none 0 FetchOutcome.unreachable).result =
      TokenCallResult.panicked "Error solicitando token PayPal" ∧
    (get_paypal_token none 0 FetchOutcome.malformedBody).result =
      TokenCallResult.panicked "Error parseando JSON de token PayPal" := by
  decide

/-- C8 (amended): whenever the cache holds no still-valid token, an
unreachable endpoint or a malformed body makes `get_paypal_token` panic via
`expect` instead of returning an error value. -/
theorem C8_fetch_failure_panics (cache : Option CachedToken) (now : Int)
    (hstale : ∀ c, cache = some c → c.is_valid now = false) :
    (∃ m, (get_paypal_token cache now FetchOutcome.unreachable).result =
        TokenCallResult.panicked m) ∧
    (∃ m, (get_paypal_token cache now FetchOutcome.malformedBody).result =
        TokenCallResult.panicked m) := by
  cases cache with
  | none => exact ⟨⟨_, rfl⟩, ⟨_, rfl⟩⟩
  | some c =>
      have hv := hstale c rfl
      unfold get_paypal_token
      simp [hv]
      exact ⟨⟨_, rfl⟩, ⟨_, rfl⟩⟩

/-- C8 witness: the empty cache satisfies the staleness hypothesis, and both
failure modes panic. -/
theorem C8_witness :
    (∃ m, (get_paypal_token none 0 FetchOutcome.unreachable).result =
        TokenCallResult.panicked m) ∧
    (∃ m, (get_paypal_token none 0 FetchOutcome.malformedBody).result =
        TokenCallResult.panicked m) :=
  C8_fetch_failure_panics none 0 (fun _ h => Option.noConfusion h)

/-- C4: the webhook handler returns a client error — never HTTP success —
when a signature header is missing, when the provider's verification fails
(in particular on a tampered signature over a valid
`BILLING.SUBSCRIPTION.CANCELLED` body), or when the event type is
unrecognized; the store is untouched when verification has not succeeded;
and every recognized, verified event type returns HTTP success. -/
theorem C4_webhook_verification_gate :
    (∀ (db : Db) (h : WebhookHeaders) (body : WebhookBody) (pv : Bool),
      (h.transmission_id = none ∨ h.transmission_sig = none ∨
        h.transmission_time = none ∨ h.cert_url = none ∨ h.auth_algo = none) →
      ((paypal_webhook db h body pv).1.isClientError = true ∧
        (paypal_webhook db h body pv).2 = db)) ∧
    (∀ (db : Db) (h : WebhookHeaders) (body : WebhookBody),
      (paypal_webhook db h body false).1.isClientError = true ∧
        (paypal_webhook db h body false).2 = db) ∧
    (∀ (db : Db) (h : WebhookHeaders) (body : WebhookBody) (pv : Bool) (t : String),
      body.event_type = some t → t ∉ handledEventTypes →
        (paypal_webhook db h body pv).1.isClientError = true) ∧
    (∀ (db : Db) (body : WebhookBody) (t : String),
      body.valid_json = true → body.event_type = some t → t ∈ handledEventTypes →
        paypal_webhook db fullHeaders body true = (WebhookResponse.ok200, db)) := by
  refine ⟨?_, ?_, ?_, ?_⟩
  · rintro db ⟨tid, sig, tim, cer, alg⟩ body pv hmiss
    cases tid <;> cases sig <;> cases tim <;> cases cer <;> cases alg <;>
      simp_all [paypal_webhook, WebhookResponse.isClientError]
  · rintro db ⟨tid, sig, tim, cer, alg⟩ ⟨bv, bet⟩
    cases tid <;> cases sig <;> cases tim <;> cases cer <;> cases alg <;>
      cases bv <;>
      simp_all [paypal_webhook, WebhookResponse.isClientError,
        verify_paypal_webhook_signature]
  · rintro db ⟨tid, sig, tim, cer, alg⟩ ⟨bv, bet⟩ pv t ht hnot
    subst ht
    cases tid <;> cases sig <;> cases tim <;> cases cer <;> cases alg <;>
      cases bv <;> cases pv <;>
      simp_all [paypal_webhook, WebhookResponse.isClientError,
        verify_paypal_webhook_signature]
  · rintro db ⟨bv, bet⟩ t h1 h2 h3
    subst h2
    simp_all [paypal_webhook, fullHeaders, verify_paypal_webhook_signature]

/-- C4 witness: a tampered signature over a valid
`BILLING.SUBSCRIPTION.CANCELLED` body is rejected with the store untouched;
the same body verified is accepted; a missing signature header and an unknown
event type are both rejected. -/
theorem C4_witness :
    (paypal_webhook cancelledSubDb fullHeaders cancelledEventBody false).1.isClientError
        = true ∧
    (paypal_webhook cancelledSubDb fullHeaders cancelledEventBody false).2
        = cancelledSubDb ∧
    paypal_webhook cancelledSubDb fullHeaders cancelledEventBody true =
      (WebhookResponse.ok200, cancelledSubDb) ∧
    (paypal_webhook cancelledSubDb noSigHeaders cancelledEventBody true).1.isClientError
        = true ∧
    (paypal_webhook cancelledSubDb fullHeaders unknownEventBody true).1.isClientError
        = true := by
  obtain ⟨p1, p2, p3, p4⟩ := C4_webhook_verification_gate
  exact ⟨(p2 _ _ _).1, (p2 _ _ _).2,
    p4 _ _ "BILLING.SUBSCRIPTION.CANCELLED" rfl rfl (by decide),
    (p1 _ _ _ _ (Or.inr (Or.inl rfl))).1,
    p3 _ _ _ _ "SOME.UNKNOWN.EVENT" rfl (by decide)⟩

theorem find?_map_pres {α : Type} (l : List α) (g : α → α) (q : α → Bool)
    (hq : ∀ x, q (g x) = q x) :
    (l.map g).find? q = (l.find? q).map g := by
  induction l with
  | nil => rfl
  | cons a l ih =>
      cases hqa : q a with
      | false =>
          have h1 : ¬ q (g a) = true := by simp [hq, hqa]
          have h2 : ¬ q a = true := by simp [hqa]
          rw [List.map_cons, List.find?_cons_of_neg _ h1, List.find?_cons_of_neg _ h2, ih]
      | true =>
          have h1 : q (g a) = true := by rw [hq]; exact hqa
          rw [List.map_cons, List.find?_cons_of_pos _ h1, List.find?_cons_of_pos _ hqa]
          rfl

theorem find?_map_fix {α : Type} (l : List α) (g : α → α) (q : α → Bool)
    (hq : ∀ x, q (g x) = q x) (hfix : ∀ x, q x = true → g x = x) :
    (l.map g).find? q = l.find? q := by
  rw [find?_map_pres l g q hq]
  cases hf : l.find? q with
  | none => rfl
  | some a => simp [hfix a (List.find?_some hf)]

theorem key_pred_false_of_ne (uid aid uid' aid' : Nat)
    (hne : (uid', aid') ≠ (uid, aid)) (x : UserAchievement)
    (hx : (x.user_id == uid' && x.achievement_id == aid') = true) :
    (x.user_id == uid && x.achievement_id == aid) = false := by
  rw [Bool.and_eq_true, beq_iff_eq, beq_iff_eq] at hx
  cases h1 : (x.user_id == uid) with
  | false => simp
  | true =>
      cases h2 : (x.achievement_id == aid) with
      | false => simp
      | true =>
          exfalso
          rw [beq_iff_eq] at h1 h2
          exact hne (by rw [← hx.1, ← hx.2, h1, h2])

theorem awardRowUpdate_key (uid aid : Nat) (now : Int) (uid' aid' : Nat)
    (x : UserAchievement) :
    ((awardRowUpdate uid aid now x).user_id == uid' &&
      (awardRowUpdate uid aid now x).achievement_id == aid') =
    (x.user_id == uid' && x.achievement_id == aid') := by
  unfold awardRowUpdate
  by_cases hc : (x.user_id == uid && x.achievement_id == aid) = true <;> simp [hc]

theorem earnRowUpdate_key (uid aid : Nat) (now : Int) (uid' aid' : Nat)
    (x : UserAchievement) :
    ((earnRowUpdate uid aid now x).user_id == uid' &&
      (earnRowUpdate uid aid now x).achievement_id == aid') =
    (x.user_id == uid' && x.achievement_id == aid') := by
  unfold earnRowUpdate
  by_cases hc : (x.user_id == uid && x.achievement_id == aid) = true <;> simp [hc]

theorem awardUpsert_of_earned (rows : List UserAchievement) (uid aid : Nat)
    (now : Int) (h : alreadyEarned rows uid aid = true) :
    awardUpsert rows uid aid now = (rows, false) := by
  unfold alreadyEarned at h
  unfold awardUpsert
  cases hf : findUserAchievement rows uid aid with
  | none => rw [hf] at h; exact absurd h (by simp)
  | some r =>
      rw [hf] at h
      have hr : r.earned = true := h
      simp [hr]

theorem awardUpsert_snd (rows : List UserAchievement) (uid aid : Nat) (now : Int) :
    (awardUpsert rows uid aid now).2 = !(alreadyEarned rows uid aid) := by
  unfold awardUpsert alreadyEarned
  cases hf : findUserAchievement rows uid aid with
  | none => simp
  | some r => cases hr : r.earned <;> simp [hr]

theorem findUserAchievement_awardUpsert_other (rows : List UserAchievement)
    (uid aid : Nat) (now : Int) (uid' aid' : Nat)
    (hne : (uid', aid') ≠ (uid, aid)) :
    findUserAchievement (awardUpsert rows uid aid now).1 uid' aid' =
      findUserAchievement rows uid' aid' := by
  unfold awardUpsert
  cases hf : findUserAchievement rows uid aid with
  | none =>
      unfold findUserAchievement
      rw [List.find?_append]
      have hxf : (uid == uid' && aid == aid') = false := by
        cases h1 : (uid == uid') with
        | false => simp
        | true =>
            cases h2 : (aid == aid') with
            | false => simp
            | true =>
                exfalso
                rw [beq_iff_eq] at h1 h2
                exact hne (by rw [h1, h2])
      cases hg : List.find? (fun r => r.user_id == uid' && r.achievement_id == aid')
          rows with
      | some r => rfl
      | none => simp [List.find?, hxf]
  | some r =>
      cases hr : r.earned with
      | true => simp [hr]
      | false =>
          simp only [hr, Bool.false_eq_true, ite_false]
          unfold findUserAchievement
          apply find?_map_fix
          · intro x
            exact awardRowUpdate_key uid aid now uid' aid' x
          · intro x hx
            unfold awardRowUpdate
            simp [key_pred_false_of_ne uid aid uid' aid' hne x hx]

theorem findUserAchievement_awardUpsert_self (rows : List UserAchievement)
    (uid aid : Nat) (now : Int) (h : alreadyEarned rows uid aid = false) :
    ∃ r, findUserAchievement (awardUpsert rows uid aid now).1 uid aid = some r ∧
      r.earned = true ∧ r.earned_at.isSome = true := by
  unfold alreadyEarned at h
  unfold awardUpsert
  cases hf : findUserAchievement rows uid aid with
  | none =>
      refine ⟨⟨uid, aid, true, some now⟩, ?_, rfl, rfl⟩
      unfold findUserAchievement at hf ⊢
      rw [List.find?_append, hf]
      simp [List.find?]
  | some r =>
      rw [hf] at h
      have hr : r.earned = false := h
      simp only [hr, Bool.false_eq_true, ite_false]
      have hf' : List.find? (fun x => x.user_id == uid && x.achievement_id == aid)
          rows = some r := hf
      have hcr0 := List.find?_some hf'
      have hcr : (r.user_id == uid && r.achievement_id == aid) = true := hcr0
      refine ⟨awardRowUpdate uid aid now r, ?_, ?_, ?_⟩
      · unfold findUserAchievement
        rw [find?_map_pres _ _ _ (fun x => awardRowUpdate_key uid aid now uid aid x),
          hf']
        rfl
      · unfold awardRowUpdate
        simp [hcr]
      · unfold awardRowUpdate
        simp only [hcr, if_true, ite_true]
        cases r.earned_at <;> simp

theorem alreadyEarned_awardUpsert_mono (rows : List UserAchievement)
    (uid aid : Nat) (now : Int) (uid' aid' : Nat)
    (h : alreadyEarned rows uid' aid' = true) :
    alreadyEarned (awardUpsert rows uid aid now).1 uid' aid' = true := by
  by_cases hk : (uid', aid') = (uid, aid)
  · have h1 : uid' = uid := congrArg Prod.fst hk
    have h2 : aid' = aid := congrArg Prod.snd hk
    subst h1; subst h2
    rw [awardUpsert_of_earned rows uid' aid' now h]
    exact h
  · unfold alreadyEarned
    rw [findUserAchievement_awardUpsert_other rows uid aid now uid' aid' hk]
    exact h

theorem alreadyEarned_awardUpsert_other (rows : List UserAchievement)
    (uid aid : Nat) (now : Int) (uid' aid' : Nat)
    (hne : (uid', aid') ≠ (uid, aid)) :
    alreadyEarned (awardUpsert rows uid aid now).1 uid' aid' =
      alreadyEarned rows uid' aid' := by
  unfold alreadyEarned
  rw [findUserAchievement_awardUpsert_other rows uid aid now uid' aid' hne]

theorem awardLoop_alreadyEarned_mono (uid : Nat) (now : Int)
    (cands : List Achievement) (rows : List UserAchievement) (uid' aid' : Nat)
    (h : alreadyEarned rows uid' aid' = true) :
    alreadyEarned (awardLoop rows uid now cands).1 uid' aid' = true := by
  induction cands generalizing rows with
  | nil => exact h
  | cons c rest ih =>
      simp only [awardLoop]
      exact ih (awardUpsert rows uid c.id now).1
        (alreadyEarned_awardUpsert_mono rows uid c.id now uid' aid' h)

theorem awardLoop_preserves_earnedRow (uid : Nat) (now : Int)
    (cands : List Achievement) (rows : List UserAchievement) (uid' aid' : Nat)
    (h : alreadyEarned rows uid' aid' = true) :
    findUserAchievement (awardLoop rows uid now cands).1 uid' aid' =
      findUserAchievement rows uid' aid' := by
  induction cands generalizing rows with
  | nil => rfl
  | cons c rest ih =>
      simp only [awardLoop]
      by_cases hk : (uid', aid') = (uid, c.id)
      · have h1 : uid' = uid := congrArg Prod.fst hk
        have h2 : aid' = c.id := congrArg Prod.snd hk
        subst h1
        subst h2
        rw [awardUpsert_of_earned rows uid' c.id now h]
        exact ih rows h
      · rw [ih (awardUpsert rows uid c.id now).1
          (alreadyEarned_awardUpsert_mono rows uid c.id now uid' aid' h)]
        exact findUserAchievement_awardUpsert_other rows uid c.id now uid' aid' hk

theorem awardLoop_mem_iff (uid : Nat) (now : Int) (cands : List Achievement)
    (hnd : (cands.map (fun a => a.id)).Nodup) (rows : List UserAchievement)
    (a : Achievement) :
    a ∈ (awardLoop rows uid now cands).2 ↔
      a ∈ cands ∧ alreadyEarned rows uid a.id = false := by
  induction cands generalizing rows with
  | nil => simp [awardLoop]
  | cons c rest ih =>
      simp only [List.map_cons, List.nodup_cons] at hnd
      obtain ⟨hcid, hndrest⟩ := hnd
      simp only [awardLoop, List.mem_append]
      constructor
      · intro hmem
        rcases hmem with h1 | h2
        · cases hstep : (awardUpsert rows uid c.id now).2 with
          | false => rw [hstep] at h1; simp at h1
          | true =>
              rw [hstep] at h1
              simp at h1
              subst h1
              have hsnd := awardUpsert_snd rows uid a.id now
              rw [hstep] at hsnd
              refine ⟨List.mem_cons_self a rest, ?_⟩
              cases halready : alreadyEarned rows uid a.id with
              | false => rfl
              | true => rw [halready] at hsnd; simp at hsnd
        · have hres := (ih hndrest (awardUpsert rows uid c.id now).1).1 h2
          have hane : a.id ≠ c.id :=
            fun he => hcid (he ▸ List.mem_map_of_mem _ hres.1)
          have hkne : (uid, a.id) ≠ (uid, c.id) :=
            fun hp => hane (congrArg Prod.snd hp)
          refine ⟨List.mem_cons_of_mem c hres.1, ?_⟩
          rw [← alreadyEarned_awardUpsert_other rows uid c.id now uid a.id hkne]
          exact hres.2
      · rintro ⟨hmem, hne⟩
        rcases List.mem_cons.mp hmem with rfl | hmem'
        · left
          have hsnd := awardUpsert_snd rows uid a.id now
          rw [hne] at hsnd
          simp only [Bool.not_false] at hsnd
          simp [hsnd]
        · right
          have hane : a.id ≠ c.id :=
            fun he => hcid (he ▸ List.mem_map_of_mem _ hmem')
          have hkne : (uid, a.id) ≠ (uid, c.id) :=
            fun hp => hane (congrArg Prod.snd hp)
          refine (ih hndrest _).2 ⟨hmem', ?_⟩
          rw [alreadyEarned_awardUpsert_other rows uid c.id now uid a.id hkne]
          exact hne

/-- C2: the award write is an atomic conditional upsert: an already-earned
(account, achievement) row makes the write a no-op reported as not newly
awarded; a not-yet-earned key is left earned with a timestamp and reported
newly awarded; and `check_and_award_achievements` returns exactly the
eligible achievements that were not already earned before the call. -/
theorem C2_award_conditional_upsert :
    (∀ (rows : List UserAchievement) (uid aid : Nat) (now : Int),
      alreadyEarned rows uid aid = true →
        awardUpsert rows uid aid now = (rows, false)) ∧
    (∀ (rows : List UserAchievement) (uid aid : Nat) (now : Int),
      alreadyEarned rows uid aid = false →
        (awardUpsert rows uid aid now).2 = true ∧
        ∃ r, findUserAchievement (awardUpsert rows uid aid now).1 uid aid = some r ∧
          r.earned = true ∧ r.earned_at.isSome = true) ∧
    (∀ (db : Db) (uid : Nat) (action : String) (value : Option Int) (now : Int)
        (a : Achievement), db.wf →
      (a ∈ (check_and_award_achievements db uid action value now).awarded ↔
        (a ∈ eligibleAchievements db action
            (computeMetric db uid action (value.getD 1)) ∧
          alreadyEarned db.user_achievements uid a.id = false))) := by
  refine ⟨?_, ?_, ?_⟩
  · exact awardUpsert_of_earned
  · intro rows uid aid now h
    refine ⟨?_, findUserAchievement_awardUpsert_self rows uid aid now h⟩
    rw [awardUpsert_snd, h]
    rfl
  · intro db uid action value now a hwf
    unfold check_and_award_achievements
    dsimp only
    apply awardLoop_mem_iff
    have hsub : ((eligibleAchievements db action
        (computeMetric db uid action (value.getD 1))).map (fun a => a.id)).Sublist
        (db.achievements.map (fun a => a.id)) :=
      List.Sublist.map _ (List.filter_sublist _)
    exact List.Nodup.sublist hsub hwf.2.2

/-- C2 witness: a write against an earned row is a no-op reported false; a
write against an absent row reports true; and account 1's completed lesson
earns the one-lesson achievement. -/
theorem C2_witness :
    awardUpsert [earnedRow17] 1 7 9 = ([earnedRow17], false) ∧
    (awardUpsert [] 1 7 9).2 = true ∧
    lessonAchievement ∈
      (check_and_award_achievements awardDb 1 "lesson_completed" none 5).awarded := by
  obtain ⟨p1, p2, p3⟩ := C2_award_conditional_upsert
  refine ⟨p1 [earnedRow17] 1 7 9 (by decide), (p2 [] 1 7 9 (by decide)).1, ?_⟩
  exact (p3 awardDb 1 "lesson_completed" none 5 lessonAchievement (by decide)).mpr
    ⟨by decide, by decide⟩

theorem findUserAchievement_earn_self (db : Db) (uid aid : Nat) (now : Int)
    (r : UserAchievement)
    (hf : findUserAchievement db.user_achievements uid aid = some r) :
    findUserAchievement (earn_achievement db uid aid now).1.user_achievements
        uid aid =
      some { r with earned := true, earned_at := some now } := by
  unfold earn_achievement
  rw [hf]
  dsimp only
  have hf' : List.find? (fun x => x.user_id == uid && x.achievement_id == aid)
      db.user_achievements = some r := hf
  have hcr0 := List.find?_some hf'
  have hcr : (r.user_id == uid && r.achievement_id == aid) = true := hcr0
  have hupd : earnRowUpdate uid aid now r =
      { r with earned := true, earned_at := some now } := by
    unfold earnRowUpdate
    rw [hcr]
    simp
  unfold findUserAchievement
  rw [find?_map_pres _ _ _ (fun x => earnRowUpdate_key uid aid now uid aid x), hf']
  simp [hupd]

theorem findUserAchievement_earn_other (db : Db) (uid aid : Nat) (now : Int)
    (uid' aid' : Nat) (hne : (uid', aid') ≠ (uid, aid)) :
    findUserAchievement (earn_achievement db uid aid now).1.user_achievements
        uid' aid' =
      findUserAchievement db.user_achievements uid' aid' := by
  unfold earn_achievement
  cases hf : findUserAchievement db.user_achievements uid aid with
  | none =>
      dsimp only
      unfold findUserAchievement
      rw [List.find?_append]
      have hxf : (uid == uid' && aid == aid') = false := by
        cases h1 : (uid == uid') with
        | false => simp
        | true =>
            cases h2 : (aid == aid') with
            | false => simp
            | true =>
                exfalso
                rw [beq_iff_eq] at h1 h2
                exact hne (by rw [h1, h2])
      cases hg : List.find? (fun r => r.user_id == uid' && r.achievement_id == aid')
          db.user_achievements with
      | some r => rfl
      | none => simp [List.find?, hxf]
  | some r =>
      dsimp only
      unfold findUserAchievement
      apply find?_map_fix
      · intro x
        exact earnRowUpdate_key uid aid now uid' aid' x
      · intro x hx
        unfold earnRowUpdate
        simp [key_pred_false_of_ne uid aid uid' aid' hne x hx]

/-- C7 counterexample: account 1's row for achievement 2 is earned with
timestamp 10; a later `earn_achievement` call at time 99 leaves the row
earned but with `earned_at` overwritten to 99 — the stored timestamp of an
already-earned row is changed by a later call. -/
theorem C7_counterexample :
    findUserAchievement earnedDb.user_achievements 1 2 =
      some { user_id := 1, achievement_id := 2, earned := true,
             earned_at := some 10 } ∧
    findUserAchievement (earn_achievement earnedDb 1 2 99).1.user_achievements 1 2 =
      some { user_id := 1, achievement_id := 2, earned := true,
             earned_at := some 99 } := by
  decide

/-- C7 (amended): the earned flag is a one-way ratchet — an earned row stays
earned under both `check_and_award_achievements` and `earn_achievement`, and
`check_and_award_achievements` leaves an already-earned row entirely
unchanged — but `earn_achievement` overwrites the row's `earned_at` with the
current call's timestamp, even on an already-earned row. -/
theorem C7_earned_ratchet_timestamp_overwritten :
    (∀ (db : Db) (uid : Nat) (action : String) (value : Option Int) (now : Int)
        (uid' aid' : Nat),
      alreadyEarned db.user_achievements uid' aid' = true →
        alreadyEarned (check_and_award_achievements db uid action value
          now).db.user_achievements uid' aid' = true) ∧
    (∀ (db : Db) (uid : Nat) (action : String) (value : Option Int) (now : Int)
        (uid' aid' : Nat),
      alreadyEarned db.user_achievements uid' aid' = true →
        findUserAchievement (check_and_award_achievements db uid action value
            now).db.user_achievements uid' aid' =
          findUserAchievement db.user_achievements uid' aid') ∧
    (∀ (db : Db) (uid aid : Nat) (now : Int) (uid' aid' : Nat),
      alreadyEarned db.user_achievements uid' aid' = true →
        alreadyEarned (earn_achievement db uid aid
          now).1.user_achievements uid' aid' = true) ∧
    (∀ (db : Db) (uid aid : Nat) (now : Int) (r : UserAchievement),
      findUserAchievement db.user_achievements uid aid = some r →
        findUserAchievement (earn_achievement db uid aid
            now).1.user_achievements uid aid =
          some { r with earned := true, earned_at := some now }) := by
  refine ⟨?_, ?_, ?_, ?_⟩
  · intro db uid action value now uid' aid' h
    unfold check_and_award_achievements
    dsimp only
    exact awardLoop_alreadyEarned_mono uid now _ db.user_achievements uid' aid' h
  · intro db uid action value now uid' aid' h
    unfold check_and_award_achievements
    dsimp only
    exact awardLoop_preserves_earnedRow uid now _ db.user_achievements uid' aid' h
  · intro db uid aid now uid' aid' h
    by_cases hk : (uid', aid') = (uid, aid)
    · have h1 : uid' = uid := congrArg Prod.fst hk
      have h2 : aid' = aid := congrArg Prod.snd hk
      rw [h1, h2] at h ⊢
      unfold alreadyEarned at h ⊢
      cases hf : findUserAchievement db.user_achievements uid aid with
      | none => rw [hf] at h; exact absurd h (by simp)
      | some r => rw [findUserAchievement_earn_self db uid aid now r hf]
    · unfold alreadyEarned at h ⊢
      rw [findUserAchievement_earn_other db uid aid now uid' aid' hk]
      exact h
  · exact findUserAchievement_earn_self

/-- C7 witness: an earned row survives a `check_and_award_achievements` call
unchanged-in-flag, and the `earn_achievement` overwrite is observable on the
concrete store. -/
theorem C7_witness :
    alreadyEarned (check_and_award_achievements earnedDb 1 "lesson_completed"
      none 99).db.user_achievements 1 2 = true ∧
    findUserAchievement (earn_achievement earnedDb 1 2 99).1.user_achievements 1 2 =
      some { user_id := 1, achievement_id := 2, earned := true,
             earned_at := some 99 } := by
  obtain ⟨p1, p2, p3, p4⟩ := C7_earned_ratchet_timestamp_overwritten
  constructor
  · exact p1 earnedDb 1 "lesson_completed" none 99 1 2 (by decide)
  · exact p4 earnedDb 1 2 99
      { user_id := 1, achievement_id := 2, earned := true, earned_at := some 10 }
      (by decide)

theorem lessonRowUpdate_key (uid lid : Nat) (c : Bool) (pr : Option ℚ)
    (now : Int) (p : LessonProgress) :
    ((lessonRowUpdate uid lid c pr now p).user_id,
      (lessonRowUpdate uid lid c pr now p).lesson_id) =
    (p.user_id, p.lesson_id) := by
  unfold lessonRowUpdate
  by_cases hc : (p.user_id == uid && p.lesson_id == lid) = true <;> simp [hc]

theorem upsertLessonProgress_keys (rows : List LessonProgress) (uid lid : Nat)
    (c : Bool) (pr : Option ℚ) (now : Int)
    (h : (rows.map (fun p => (p.user_id, p.lesson_id))).Nodup) :
    ((upsertLessonProgress rows uid lid c pr now).map
      (fun p => (p.user_id, p.lesson_id))).Nodup := by
  unfold upsertLessonProgress
  cases hf : rows.find? (fun p => p.user_id == uid && p.lesson_id == lid) with
  | none =>
      rw [List.map_append]
      rw [List.nodup_append]
      refine ⟨h, by simp, ?_⟩
      intro x hx
      simp only [List.map_cons, List.map_nil, List.mem_singleton]
      intro hx2
      rw [List.mem_map] at hx
      obtain ⟨p, hp, hkey⟩ := hx
      have hnp := List.find?_eq_none.mp hf p hp
      apply hnp
      have h1 : p.user_id = uid := by
        have := congrArg Prod.fst (hkey.trans hx2)
        exact this
      have h2 : p.lesson_id = lid := by
        have := congrArg Prod.snd (hkey.trans hx2)
        exact this
      rw [h1, h2]
      simp
  | some _ =>
      rw [List.map_map]
      have hcomp : ((fun p : LessonProgress => (p.user_id, p.lesson_id)) ∘
          lessonRowUpdate uid lid c pr now) =
          fun p : LessonProgress => (p.user_id, p.lesson_id) := by
        funext p
        exact lessonRowUpdate_key uid lid c pr now p
      rw [hcomp]
      exact h

theorem completed_lessons_le_total (db : Db) (uid cid : Nat)
    (h : (db.lesson_progress.map (fun p => (p.user_id, p.lesson_id))).Nodup) :
    completed_lessons_query db uid cid ≤ total_lessons_query db cid := by
  unfold completed_lessons_query total_lessons_query completedLessonRows courseLessons
  have hinj := List.inj_on_of_nodup_map h
  have hrn : (db.lesson_progress.filter (fun p =>
      p.user_id == uid && p.is_completed &&
        db.lessons.any (fun l => l.id == p.lesson_id &&
          db.modules.any (fun m => m.id == l.module_id && m.course_id == cid)))).Nodup :=
    List.Nodup.sublist (List.filter_sublist _) (List.Nodup.of_map _ h)
  have h1 : ((db.lesson_progress.filter (fun p =>
      p.user_id == uid && p.is_completed &&
        db.lessons.any (fun l => l.id == p.lesson_id &&
          db.modules.any (fun m => m.id == l.module_id && m.course_id == cid)))).map
        (fun p => p.lesson_id)).Nodup := by
    apply List.Nodup.map_on ?_ hrn
    intro x hx y hy hxy
    have hxm := List.mem_of_mem_filter hx
    have hym := List.mem_of_mem_filter hy
    have hxp := List.of_mem_filter hx
    have hyp := List.of_mem_filter hy
    rw [Bool.and_eq_true, Bool.and_eq_true] at hxp hyp
    obtain ⟨⟨hxu, _⟩, _⟩ := hxp
    obtain ⟨⟨hyu, _⟩, _⟩ := hyp
    rw [beq_iff_eq] at hxu hyu
    apply hinj hxm hym
    rw [Prod.mk.injEq]
    exact ⟨by rw [hxu, hyu], hxy⟩
  have h2 : ∀ x ∈ (db.lesson_progress.filter (fun p =>
      p.user_id == uid && p.is_completed &&
        db.lessons.any (fun l => l.id == p.lesson_id &&
          db.modules.any (fun m => m.id == l.module_id && m.course_id == cid)))).map
        (fun p => p.lesson_id),
      x ∈ (db.lessons.filter (fun l =>
        db.modules.any (fun m => m.id == l.module_id && m.course_id == cid))).map
          (fun l => l.id) := by
    intro x hx
    rw [List.mem_map] at hx
    obtain ⟨p, hp, hpx⟩ := hx
    have hpp := List.of_mem_filter hp
    rw [Bool.and_eq_true] at hpp
    obtain ⟨_, hany⟩ := hpp
    rw [List.any_eq_true] at hany
    obtain ⟨l, hl, hlp⟩ := hany
    rw [Bool.and_eq_true, beq_iff_eq] at hlp
    obtain ⟨hlid, hlmod⟩ := hlp
    rw [List.mem_map]
    refine ⟨l, ?_, by rw [hlid, hpx]⟩
    rw [List.mem_filter]
    exact ⟨hl, hlmod⟩
  have hsub : ((db.lesson_progress.filter (fun p =>
      p.user_id == uid && p.is_completed &&
        db.lessons.any (fun l => l.id == p.lesson_id &&
          db.modules.any (fun m => m.id == l.module_id && m.course_id == cid)))).map
        (fun p => p.lesson_id)).toFinset ⊆
      ((db.lessons.filter (fun l =>
        db.modules.any (fun m => m.id == l.module_id && m.course_id == cid))).map
          (fun l => l.id)).toFinset := by
    intro x hx
    rw [List.mem_toFinset] at hx ⊢
    exact h2 x hx
  calc (db.lesson_progress.filter (fun p =>
      p.user_id == uid && p.is_completed &&
        db.lessons.any (fun l => l.id == p.lesson_id &&
          db.modules.any (fun m => m.id == l.module_id && m.course_id == cid)))).length
      = ((db.lesson_progress.filter (fun p =>
          p.user_id == uid && p.is_completed &&
            db.lessons.any (fun l => l.id == p.lesson_id &&
              db.modules.any (fun m => m.id == l.module_id && m.course_id == cid)))).map
            (fun p => p.lesson_id)).length := (List.length_map _ _).symm
    _ = ((db.lesson_progress.filter (fun p =>
          p.user_id == uid && p.is_completed &&
            db.lessons.any (fun l => l.id == p.lesson_id &&
              db.modules.any (fun m => m.id == l.module_id && m.course_id == cid)))).map
            (fun p => p.lesson_id)).toFinset.card :=
        (List.toFinset_card_of_nodup h1).symm
    _ ≤ ((db.lessons.filter (fun l =>
          db.modules.any (fun m => m.id == l.module_id && m.course_id == cid))).map
            (fun l => l.id)).toFinset.card := Finset.card_le_card hsub
    _ ≤ ((db.lessons.filter (fun l =>
          db.modules.any (fun m => m.id == l.module_id && m.course_id == cid))).map
            (fun l => l.id)).length := List.toFinset_card_le _
    _ = (db.lessons.filter (fun l =>
          db.modules.any (fun m => m.id == l.module_id && m.course_id == cid))).length :=
        List.length_map _ _

theorem derivedPercentage_spec (db : Db) (uid cid : Nat)
    (hle : completed_lessons_query db uid cid ≤ total_lessons_query db cid) :
    0 ≤ derivedPercentage db uid cid ∧ derivedPercentage db uid cid ≤ 100 ∧
      (derivedPercentage db uid cid = 100 ↔
        (completed_lessons_query db uid cid = total_lessons_query db cid ∧
          0 < total_lessons_query db cid)) := by
  unfold derivedPercentage
  by_cases ht : 0 < total_lessons_query db cid
  · rw [if_pos ht]
    have htq : (0:ℚ) < (total_lessons_query db cid : ℚ) := by exact_mod_cast ht
    have hcq : (completed_lessons_query db uid cid : ℚ) ≤
        (total_lessons_query db cid : ℚ) := by exact_mod_cast hle
    refine ⟨?_, ?_, ?_⟩
    · positivity
    · have hdiv : (completed_lessons_query db uid cid : ℚ) /
          (total_lessons_query db cid : ℚ) ≤ 1 := (div_le_one htq).mpr hcq
      calc (completed_lessons_query db uid cid : ℚ) /
            (total_lessons_query db cid : ℚ) * 100 ≤ 1 * 100 := by
              apply mul_le_mul_of_nonneg_right hdiv
              norm_num
        _ = 100 := by norm_num
    · constructor
      · intro hp
        have h1 : (completed_lessons_query db uid cid : ℚ) /
            (total_lessons_query db cid : ℚ) = 1 := by
          have h100 : (completed_lessons_query db uid cid : ℚ) /
              (total_lessons_query db cid : ℚ) * 100 = 1 * 100 := by
            rw [hp]
            norm_num
          exact mul_right_cancel₀ (by norm_num) h100
        rw [div_eq_one_iff_eq (ne_of_gt htq)] at h1
        exact ⟨by exact_mod_cast h1, ht⟩
      · rintro ⟨hc, _⟩
        rw [hc, div_self (ne_of_gt htq)]
        norm_num
  · rw [if_neg ht]
    refine ⟨le_refl 0, by norm_num, ?_⟩
    constructor
    · intro hp
      norm_num at hp
    · rintro ⟨_, h0⟩
      exact absurd h0 ht

theorem update_lesson_progress_spec (db : Db) (uid lid : Nat) (c : Bool)
    (pr : Option ℚ) (now : Int) (out : ProgressOutcome)
    (hok : update_lesson_progress db uid lid c pr now = Except.ok out) :
    ∃ cid,
      out.progress_percentage =
        derivedPercentage (dbAfterLessonUpsert db uid lid c pr now) uid cid ∧
      out.lesson_check_run = c ∧
      (out.course_check_run = true ↔ 100 ≤ out.progress_percentage) := by
  unfold update_lesson_progress at hok
  dsimp only at hok
  cases hl : db.lessons.find? (fun l => l.id == lid) with
  | none => rw [hl] at hok; simp at hok
  | some l =>
      rw [hl] at hok
      dsimp only at hok
      cases hm : db.modules.find? (fun m => m.id == l.module_id) with
      | none => rw [hm] at hok; simp at hok
      | some m =>
          rw [hm] at hok
          dsimp only at hok
          injection hok with hv
          subst hv
          refine ⟨m.course_id, rfl, ?_, ?_⟩
          · cases c <;> rfl
          · by_cases h100 : 100 ≤ derivedPercentage
                { db with lesson_progress :=
                    upsertLessonProgress db.lesson_progress uid lid c pr now }
                uid m.course_id
            · simp [h100]
            · simp [h100]

theorem progressRun_ok (c : Bool) :
    ∃ out, update_lesson_progress progressDb 1 1 c none 5 = Except.ok out := by
  unfold update_lesson_progress
  dsimp only
  rw [show progressDb.lessons.find? (fun x => x.id == 1) =
      some { id := 1, module_id := 1 } from by decide]
  dsimp only
  rw [show progressDb.modules.find? (fun x => x.id == 1) =
      some { id := 1, course_id := 1 } from by decide]
  exact ⟨_, rfl⟩

/-- C3: a successful `update_lesson_progress` derives the course percentage
from freshly recomputed counts as `completed/total * 100` with `total = 0`
giving `0` rather than a division fault; consequently
`0 ≤ percentage ≤ 100`, and `percentage = 100` exactly when the recomputed
counts satisfy `completed = total` with `total > 0`. -/
theorem C3_percentage_recomputed_bounded (db : Db) (uid lid : Nat) (c : Bool)
    (pr : Option ℚ) (now : Int) (out : ProgressOutcome) (hwf : db.wf)
    (hok : update_lesson_progress db uid lid c pr now = Except.ok out) :
    0 ≤ out.progress_percentage ∧ out.progress_percentage ≤ 100 ∧
    ∃ cid,
      out.progress_percentage =
        derivedPercentage (dbAfterLessonUpsert db uid lid c pr now) uid cid ∧
      (out.progress_percentage = 100 ↔
        (completed_lessons_query (dbAfterLessonUpsert db uid lid c pr now) uid cid =
          total_lessons_query (dbAfterLessonUpsert db uid lid c pr now) cid ∧
         0 < total_lessons_query (dbAfterLessonUpsert db uid lid c pr now) cid)) := by
  obtain ⟨cid, hpct, _, _⟩ := update_lesson_progress_spec db uid lid c pr now out hok
  have hkeys : ((dbAfterLessonUpsert db uid lid c pr now).lesson_progress.map
        (fun p => (p.user_id, p.lesson_id))).Nodup :=
    upsertLessonProgress_keys db.lesson_progress uid lid c pr now hwf.1
  have hle := completed_lessons_le_total _ uid cid hkeys
  have hspec := derivedPercentage_spec _ uid cid hle
  rw [hpct]
  exact ⟨hspec.1, hspec.2.1, cid, rfl, hspec.2.2⟩

/-- C3 witness: the concrete completed run of account 1 on lesson 1 succeeds
with its percentage inside the bounds. -/
theorem C3_witness :
    ∃ out, update_lesson_progress progressDb 1 1 true none 5 = Except.ok out ∧
      0 ≤ out.progress_percentage ∧ out.progress_percentage ≤ 100 := by
  obtain ⟨out, hok⟩ := progressRun_ok true
  have h := C3_percentage_recomputed_bounded progressDb 1 1 true none 5 out
    (by decide) hok
  exact ⟨out, hok, h.1, h.2.1⟩

/-- C6 counterexample: a call with `isCompleted = false` does not evaluate
the lesson-completed achievement trigger — the claim's "always, regardless
of the isCompleted argument" fails on the `if is_completed` guard. -/
theorem C6_counterexample :
    (update_lesson_progress progressDb 1 1 false none 5).toOption.map
      (fun o => o.lesson_check_run) = some false := by
  obtain ⟨out, hok⟩ := progressRun_ok false
  obtain ⟨cid, _, h2, _⟩ :=
    update_lesson_progress_spec progressDb 1 1 false none 5 out hok
  rw [hok]
  simp [Except.toOption, h2]

/-- C6 (amended): after the transaction, the lesson-completed trigger is
evaluated exactly when `isCompleted` is true, and the course-completed
trigger exactly when the new percentage is ≥ 100. -/
theorem C6_trigger_conditions (db : Db) (uid lid : Nat) (c : Bool)
    (pr : Option ℚ) (now : Int) (out : ProgressOutcome)
    (hok : update_lesson_progress db uid lid c pr now = Except.ok out) :
    out.lesson_check_run = c ∧
    (out.course_check_run = true ↔ 100 ≤ out.progress_percentage) := by
  obtain ⟨cid, _, h2, h3⟩ := update_lesson_progress_spec db uid lid c pr now out hok
  exact ⟨h2, h3⟩

/-- C6 witness: the concrete completed run evaluates the lesson trigger, and
its course trigger ran exactly when the percentage reached 100. -/
theorem C6_witness :
    ∃ out, update_lesson_progress progressDb 1 1 true none 5 = Except.ok out ∧
      out.lesson_check_run = true ∧
      (out.course_check_run = true ↔ 100 ≤ out.progress_percentage) := by
  obtain ⟨out, hok⟩ := progressRun_ok true
  have h := C6_trigger_conditions progressDb 1 1 true none 5 out hok
  exact ⟨out, hok, h.1, h.2⟩

end AndreaPagina
